import Mathlib

set_option maxRecDepth 8192

/-!
Shallow embedding of the `steamid-ng` library (`src/lib.rs`).

A `SteamID` packs four fields into a 64-bit word:
bits 0-31 account id, bits 32-43 instance type, bits 44-51 instance flags,
bits 52-55 account type, bits 56-63 universe.

Machine integers are modelled as `Nat`; `u32`/`u64` bounds appear as explicit
hypotheses (`< 2 ^ 32`, `< 2 ^ 64`) or as `% 2 ^ w` where the Rust code wraps.
Rust code that can panic (`expect`/`unreachable!`) is modelled with `Option`,
`none` standing for the panic; fallible conversions (`TryFrom`) return
`Option` with `none` for `Err(SteamIDParseError)`.

Text is modelled as `List Nat` of ASCII byte values, matching the byte-wise
parsers in the source (`str::bytes`).  Byte values used throughout:
91 is the opening square bracket, 93 the closing one, 58 is the colon,
48..57 are the digits, and the letters follow ASCII
(65 A, 67 C, 71 G, 73 I, 76 L, 77 M, 80 P, 84 T, 85 U, 97 a, 99 c,
103 g, 105 i; 83 84 69 65 77 95 spell the steam2 header).
-/

/-- AccountType enumeration from the source (discriminants 0..10). -/
inductive AccountType
  | Invalid
  | Individual
  | Multiseat
  | GameServer
  | AnonGameServer
  | Pending
  | ContentServer
  | Clan
  | Chat
  | ConsoleUser
  | AnonUser
  deriving DecidableEq

/-- Numeric discriminant of an `AccountType` (Rust `as u64`). -/
def AccountType.toNat : AccountType → Nat
  | .Invalid => 0
  | .Individual => 1
  | .Multiseat => 2
  | .GameServer => 3
  | .AnonGameServer => 4
  | .Pending => 5
  | .ContentServer => 6
  | .Clan => 7
  | .Chat => 8
  | .ConsoleUser => 9
  | .AnonUser => 10

/-- Rust `impl TryFrom<u8> for AccountType`. -/
def AccountType.tryFrom : Nat → Option AccountType
  | 0 => some .Invalid
  | 1 => some .Individual
  | 2 => some .Multiseat
  | 3 => some .GameServer
  | 4 => some .AnonGameServer
  | 5 => some .Pending
  | 6 => some .ContentServer
  | 7 => some .Clan
  | 8 => some .Chat
  | 9 => some .ConsoleUser
  | 10 => some .AnonUser
  | _ => none

/-- Universe enumeration from the source (discriminants 0..5). -/
inductive Universe
  | Invalid
  | Public
  | Beta
  | Internal
  | Dev
  | RC
  deriving DecidableEq

/-- Numeric discriminant of a `Universe` (Rust `as u64`). -/
def Universe.toNat : Universe → Nat
  | .Invalid => 0
  | .Public => 1
  | .Beta => 2
  | .Internal => 3
  | .Dev => 4
  | .RC => 5

/-- Rust `impl TryFrom<u8> for Universe`. -/
def Universe.tryFrom : Nat → Option Universe
  | 0 => some .Invalid
  | 1 => some .Public
  | 2 => some .Beta
  | 3 => some .Internal
  | 4 => some .Dev
  | 5 => some .RC
  | _ => none

/-- InstanceType enumeration from the source (discriminants 0,1,2,4). -/
inductive InstanceType
  | All
  | Desktop
  | Console
  | Web
  deriving DecidableEq

/-- Numeric discriminant of an `InstanceType` (Rust `as u32`). -/
def InstanceType.toNat : InstanceType → Nat
  | .All => 0
  | .Desktop => 1
  | .Console => 2
  | .Web => 4

/-- Rust `impl TryFrom<u32> for InstanceType`. -/
def InstanceType.tryFrom : Nat → Option InstanceType
  | 0 => some .All
  | 1 => some .Desktop
  | 2 => some .Console
  | 4 => some .Web
  | _ => none

/-- InstanceFlags enumeration from the source (discriminants 0, 0x80, 0x40, 0x20). -/
inductive InstanceFlags
  | None
  | Clan
  | Lobby
  | MMSLobby
  deriving DecidableEq

/-- Numeric discriminant of an `InstanceFlags` (Rust `as u32` / `as u8`). -/
def InstanceFlags.toNat : InstanceFlags → Nat
  | .None => 0
  | .Clan => 128
  | .Lobby => 64
  | .MMSLobby => 32

/-- Rust `impl TryFrom<u8> for InstanceFlags`. -/
def InstanceFlags.tryFrom : Nat → Option InstanceFlags
  | 0 => some .None
  | 128 => some .Clan
  | 64 => some .Lobby
  | 32 => some .MMSLobby
  | _ => none

/-- Rust `pub struct Instance(u32)`; the wrapped `u32` is a `Nat`. -/
structure Instance where
  val : Nat
  deriving DecidableEq

/-- Rust `Instance::new`: `Instance(instance_type as u32 | (flags as u32) << 12)`. -/
def Instance.new (instance_type : InstanceType) (flags : InstanceFlags) : Instance :=
  ⟨instance_type.toNat ||| flags.toNat <<< 12⟩

/-- Rust `Instance::instance_type`: matches `self.0 & 0xFFF`; the source's
`unreachable!()` arm is modelled as `none`. -/
def Instance.instance_type (i : Instance) : Option InstanceType :=
  match i.val &&& 0xFFF with
  | 0 => some .All
  | 1 => some .Desktop
  | 2 => some .Console
  | 4 => some .Web
  | _ => none

/-- Rust `Instance::set_instance_type`: `self.0 &= 0xFF000; self.0 |= instance_type as u32`. -/
def Instance.set_instance_type (i : Instance) (instance_type : InstanceType) : Instance :=
  ⟨i.val &&& 0xFF000 ||| instance_type.toNat⟩

/-- Rust `Instance::flags`: matches `self.0 >> 12`; `unreachable!()` is `none`. -/
def Instance.flags (i : Instance) : Option InstanceFlags :=
  match i.val >>> 12 with
  | 0 => some .None
  | 128 => some .Clan
  | 64 => some .Lobby
  | 32 => some .MMSLobby
  | _ => none

/-- Rust `Instance::set_flags`: `self.0 &= 0x00FFF; self.0 |= (flags as u32) << 12`. -/
def Instance.set_flags (i : Instance) (flags : InstanceFlags) : Instance :=
  ⟨i.val &&& 0x00FFF ||| flags.toNat <<< 12⟩

/-- Rust `impl TryFrom<u32> for Instance`.  Note the source casts
`(value >> 12) as u8` before validating the flags, which truncates to the
low 8 bits; the cast is modelled by `% 256`. -/
def Instance.tryFrom (value : Nat) : Option Instance :=
  match InstanceType.tryFrom (value &&& 0xFFF) with
  | none => none
  | some _ =>
    match InstanceFlags.tryFrom ((value >>> 12) % 256) with
    | none => none
    | some _ => some ⟨value⟩

/-- Rust `pub struct SteamID(u64)`; the wrapped `u64` is a `Nat`. -/
structure SteamID where
  val : Nat
  deriving DecidableEq

/-- Rust `SteamID::new`: ORs the four fields into place
(`account_id | instance << 32 | account_type << 52 | universe << 56`). -/
def SteamID.new (account_id : Nat) (inst : Instance) (account_type : AccountType)
    (uni : Universe) : SteamID :=
  ⟨account_id ||| inst.val <<< 32 ||| account_type.toNat <<< 52 ||| uni.toNat <<< 56⟩

/-- Rust `SteamID::account_id`: `(self.0 & 0xFFFFFFFF) as u32`. -/
def SteamID.account_id (s : SteamID) : Nat :=
  s.val &&& 0xFFFFFFFF

/-- Rust `SteamID::set_account_id` (mutation modelled as returning the new value). -/
def SteamID.set_account_id (s : SteamID) (account_id : Nat) : SteamID :=
  ⟨s.val &&& 0xFFFFFFFF00000000 ||| account_id⟩

/-- Rust `SteamID::instance`: `Instance::try_from(((self.0 >> 32) & 0xFFFFF) as u32)`
followed by `.expect(..)`; the panic is modelled as `none`. -/
def SteamID.get_instance (s : SteamID) : Option Instance :=
  Instance.tryFrom (s.val >>> 32 &&& 0xFFFFF)

/-- Rust `SteamID::set_instance`: `self.0 &= 0xFFF00000FFFFFFFF; self.0 |= instance.0 << 32`. -/
def SteamID.set_instance (s : SteamID) (inst : Instance) : SteamID :=
  ⟨s.val &&& 0xFFF00000FFFFFFFF ||| inst.val <<< 32⟩

/-- Rust `SteamID::set_instance_type` (goes through the panicking accessor). -/
def SteamID.set_instance_type (s : SteamID) (instance_type : InstanceType) : Option SteamID :=
  match s.get_instance with
  | none => none
  | some inst => some (s.set_instance (inst.set_instance_type instance_type))

/-- Rust `SteamID::set_instance_flags` (goes through the panicking accessor). -/
def SteamID.set_instance_flags (s : SteamID) (flags : InstanceFlags) : Option SteamID :=
  match s.get_instance with
  | none => none
  | some inst => some (s.set_instance (inst.set_flags flags))

/-- Rust `SteamID::account_type`: `AccountType::try_from(((self.0 >> 52) & 0xF) as u8)`
followed by `.expect(..)`; the panic is modelled as `none`. -/
def SteamID.account_type (s : SteamID) : Option AccountType :=
  AccountType.tryFrom (s.val >>> 52 &&& 0xF)

/-- Rust `SteamID::set_account_type`. -/
def SteamID.set_account_type (s : SteamID) (account_type : AccountType) : SteamID :=
  ⟨s.val &&& 0xFF0FFFFFFFFFFFFF ||| account_type.toNat <<< 52⟩

/-- Rust `SteamID::universe`: `Universe::try_from(((self.0 >> 56) & 0xFF) as u8)`
followed by `.expect(..)`; the panic is modelled as `none`. -/
def SteamID.get_universe (s : SteamID) : Option Universe :=
  Universe.tryFrom (s.val >>> 56 &&& 0xFF)

/-- Rust `SteamID::set_universe`. -/
def SteamID.set_universe (s : SteamID) (uni : Universe) : SteamID :=
  ⟨s.val &&& 0x00FFFFFFFFFFFFFF ||| uni.toNat <<< 56⟩

/-- Rust `SteamID::steam64`. -/
def SteamID.steam64 (s : SteamID) : Nat :=
  s.val

/-- Rust `impl TryFrom<u64> for SteamID`: re-validates each field before
wrapping the raw value. -/
def SteamID.tryFrom (value : Nat) : Option SteamID :=
  match Instance.tryFrom (value >>> 32 &&& 0xFFFFF) with
  | none => none
  | some _ =>
    match AccountType.tryFrom (value >>> 52 &&& 0xF) with
    | none => none
    | some _ =>
      match Universe.tryFrom (value >>> 56 &&& 0xFF) with
      | none => none
      | some _ => some ⟨value⟩

/-- Rust `SteamID::from_steam64` (delegates to `TryFrom<u64>`). -/
def SteamID.from_steam64 (value : Nat) : Option SteamID :=
  SteamID.tryFrom value

/-- Rust free function `digit_from_ascii`: `Some(byte - b'0')` for ASCII digits. -/
def digit_from_ascii (b : Nat) : Option Nat :=
  if 48 ≤ b ∧ b ≤ 57 then some (b - 48) else none

/-- Rust `u32::checked_mul`: multiplication failing on 32-bit overflow. -/
def checked_mul_u32 (a b : Nat) : Option Nat :=
  if a * b < 2 ^ 32 then some (a * b) else none

/-- Rust `u32::checked_add`: addition failing on 32-bit overflow. -/
def checked_add_u32 (a b : Nat) : Option Nat :=
  if a + b < 2 ^ 32 then some (a + b) else none

/-- The digit-accumulation loop of `SteamID::from_steam2`: every remaining
byte must be a digit, accumulated with checked multiply/add. -/
def steam2_digits_loop (acc : Nat) : List Nat → Option Nat
  | [] => some acc
  | b :: rest =>
    match digit_from_ascii b with
    | none => none
    | some d =>
      match checked_mul_u32 acc 10 with
      | none => none
      | some x =>
        match checked_add_u32 x d with
        | none => none
        | some y => steam2_digits_loop y rest

/-- The peek-driven digit-accumulation loop of `SteamID::from_steam3`:
consumes the maximal run of digits with checked multiply/add and returns
the accumulated value together with the unconsumed bytes. -/
def steam3_digits_loop (acc : Nat) : List Nat → Option (Nat × List Nat)
  | [] => some (acc, [])
  | b :: rest =>
    match digit_from_ascii b with
    | none => some (acc, b :: rest)
    | some d =>
      match checked_mul_u32 acc 10 with
      | none => none
      | some x =>
        match checked_add_u32 x d with
        | none => none
        | some y => steam3_digits_loop y rest

/-- Rust `match bytes.next() { b'0' => 0, b'1' => 1, _ => Err }` for the
steam2 auth-server position. -/
def auth_server_byte : Nat → Option Nat
  | 48 => some 0
  | 49 => some 1
  | _ => none

/-- Rust `SteamID::from_steam2`.  The byte pattern `83 84 69 65 77 95` is the
literal prefix stripped by `strip_prefix` in the source; `58` is the colon.
The final `account_id << 1 | auth_server` is a wrapping u32 shift, hence
the `% 2 ^ 32`. -/
def SteamID.from_steam2 (s : List Nat) : Option SteamID :=
  match s with
  | 83 :: 84 :: 69 :: 65 :: 77 :: 95 :: ub :: c1 :: ab :: c2 :: digits =>
    match digit_from_ascii ub with
    | none => none
    | some d =>
      match Universe.tryFrom d with
      | none => none
      | some u1 =>
        -- games before orange box used to display universe 0; coerce to Public
        let uni := if u1 = Universe.Invalid then Universe.Public else u1
        if c1 = 58 then
          match auth_server_byte ab with
          | none => none
          | some auth =>
            if c2 = 58 then
              if digits.length ≤ 10 then
                match digits with
                | [] => none
                | d0 :: ds =>
                  match digit_from_ascii d0 with
                  | none => none
                  | some f =>
                    match steam2_digits_loop f ds with
                    | none => none
                    | some acc =>
                      some (SteamID.new ((acc <<< 1) % 2 ^ 32 ||| auth)
                        (Instance.new InstanceType.Desktop InstanceFlags.None)
                        AccountType.Individual uni)
              else none
            else none
        else none
  | _ => none

/-- Auxiliary decimal digit expansion, most significant digit first, with
explicit fuel so the kernel can evaluate it.  `decDigitsAux fuel n` is the
digit list of `n` whenever `n < 10 ^ fuel` (and `n > 0`). -/
def decDigitsAux (fuel n : Nat) : List Nat :=
  match fuel with
  | 0 => []
  | fuel + 1 => if n = 0 then [] else decDigitsAux fuel (n / 10) ++ [n % 10]

/-- Decimal rendering of an unsigned machine integer as ASCII bytes, most
significant digit first — Rust's `Display` for `u32`/`u64` as used by the
`format!` calls in `steam2`/`steam3`.  Fuel 20 covers every `u64`. -/
def decimalBytes (n : Nat) : List Nat :=
  if n = 0 then [48] else (decDigitsAux 20 n).map (fun d => d + 48)

/-- Rust free function `account_type_to_char`, returning the ASCII byte of
the steam3 type character. -/
def account_type_to_char (account_type : AccountType) (flags : InstanceFlags) : Nat :=
  match account_type with
  | .Invalid => 73
  | .Individual => 85
  | .Multiseat => 77
  | .GameServer => 71
  | .AnonGameServer => 65
  | .Pending => 80
  | .ContentServer => 67
  | .Clan => 103
  | .Chat =>
    match flags with
    | .Clan => 99
    | .Lobby => 76
    | _ => 84
  | .ConsoleUser => 85
  | .AnonUser => 97

/-- Rust free function `char_to_account_type` (keyed on the ASCII byte). -/
def char_to_account_type (c : Nat) : Option (AccountType × InstanceFlags) :=
  match c with
  | 85 => some (.Individual, .None)
  | 77 => some (.Multiseat, .None)
  | 71 => some (.GameServer, .None)
  | 65 => some (.AnonGameServer, .None)
  | 80 => some (.Pending, .None)
  | 67 => some (.ContentServer, .None)
  | 103 => some (.Clan, .None)
  | 84 => some (.Chat, .None)
  | 99 => some (.Chat, .Clan)
  | 76 => some (.Chat, .Lobby)
  | 97 => some (.AnonUser, .None)
  | 73 => some (.Invalid, .None)
  | 105 => some (.Invalid, .None)
  | _ => none

/-- The `render_instance` flag computed inside Rust `SteamID::steam3`. -/
def render_instance (account_type : AccountType) (instance_type : InstanceType) : Bool :=
  match account_type with
  | .AnonGameServer | .Multiseat => true
  | .Individual => instance_type != InstanceType.Desktop
  | _ => false

/-- Rust `SteamID::steam2` renderer (string as ASCII bytes).  The accessors
can panic on a malformed bit pattern, hence the `Option`. -/
def SteamID.steam2 (s : SteamID) : Option (List Nat) :=
  match s.account_type with
  | none => none
  | some t =>
    match t with
    | AccountType.Individual | AccountType.Invalid =>
      match s.get_universe with
      | none => none
      | some uni =>
        some ([83, 84, 69, 65, 77, 95] ++ decimalBytes uni.toNat ++ [58]
          ++ decimalBytes (s.account_id &&& 1) ++ [58] ++ decimalBytes (s.account_id >>> 1))
    | _ => some (decimalBytes s.val)

/-- Rust `SteamID::steam3` renderer (string as ASCII bytes). -/
def SteamID.steam3 (s : SteamID) : Option (List Nat) :=
  match s.account_type with
  | none => none
  | some account_type =>
    match s.get_instance with
    | none => none
    | some inst =>
      match inst.instance_type with
      | none => none
      | some instance_type =>
        match inst.flags with
        | none => none
        | some instance_flags =>
          match s.get_universe with
          | none => none
          | some uni =>
            if render_instance account_type instance_type then
              some ([91, account_type_to_char account_type instance_flags, 58]
                ++ decimalBytes uni.toNat ++ [58] ++ decimalBytes s.account_id
                ++ [58] ++ decimalBytes inst.val ++ [93])
            else
              some ([91, account_type_to_char account_type instance_flags, 58]
                ++ decimalBytes uni.toNat ++ [58] ++ decimalBytes s.account_id ++ [93])

/-- The default/forced instance-type resolution of `SteamID::from_steam3`
(the `match (maybe_instance_type, account_type)` in the source). -/
def resolve_instance_type : Option InstanceType → AccountType → InstanceType
  | none, AccountType.Individual => InstanceType.Desktop
  | none, _ => InstanceType.All
  | some _, AccountType.Clan => InstanceType.All
  | some _, AccountType.Chat => InstanceType.All
  | some it, _ => it

/-- Rust `SteamID::from_steam3`.  Byte 91 is the opening bracket, 93 the
closing one, 58 the colon. -/
def SteamID.from_steam3 (s : List Nat) : Option SteamID :=
  match s with
  | 91 :: tc :: c1 :: ub :: c2 :: rest =>
    match char_to_account_type tc with
    | none => none
    | some (account_type, instance_flags) =>
      if c1 = 58 then
        match digit_from_ascii ub with
        | none => none
        | some d =>
          match Universe.tryFrom d with
          | none => none
          | some uni =>
            if c2 = 58 then
              match rest with
              | [] => none
              | d0 :: rest1 =>
                match digit_from_ascii d0 with
                | none => none
                | some f =>
                  match steam3_digits_loop f rest1 with
                  | none => none
                  | some (account_id, rest2) =>
                    -- instance is optional; parse it if present, leaving `]` intact
                    let step : Option (Option InstanceType × List Nat) :=
                      match rest2 with
                      | [58] => none
                      | 58 :: i0 :: restI =>
                        match digit_from_ascii i0 with
                        | none => none
                        | some g =>
                          match steam3_digits_loop g restI with
                          | none => none
                          | some (accI, rest4) =>
                            match InstanceType.tryFrom accI with
                            | none => none
                            | some it => some (some it, rest4)
                      | _ => some (none, rest2)
                    match step with
                    | none => none
                    | some (maybe_instance_type, rest3) =>
                      let instance_type :=
                        resolve_instance_type maybe_instance_type account_type
                      match rest3 with
                      | [93] =>
                        some (SteamID.new account_id
                          (Instance.new instance_type instance_flags) account_type uni)
                      | _ => none
            else none
      else none
  | _ => none

/-! ### Arithmetic helpers for the bit layout -/

lemma lor_shift_eq_add {a : Nat} (b k : Nat) (h : a < 2 ^ k) :
    a ||| b <<< k = b * 2 ^ k + a := by
  rw [Nat.shiftLeft_eq, Nat.lor_comm]
  rw [show b * 2 ^ k = 2 ^ k * b from Nat.mul_comm b _]
  exact (Nat.mul_add_lt_is_or h b).symm

lemma and_mask32 (x : Nat) : x &&& 0xFFFFFFFF = x % 2 ^ 32 := by
  have h : (0xFFFFFFFF : Nat) = 2 ^ 32 - 1 := by norm_num
  rw [h, Nat.and_pow_two_sub_one_eq_mod]

lemma and_mask20 (x : Nat) : x &&& 0xFFFFF = x % 2 ^ 20 := by
  have h : (0xFFFFF : Nat) = 2 ^ 20 - 1 := by norm_num
  rw [h, Nat.and_pow_two_sub_one_eq_mod]

lemma and_mask12 (x : Nat) : x &&& 0xFFF = x % 2 ^ 12 := by
  have h : (0xFFF : Nat) = 2 ^ 12 - 1 := by norm_num
  rw [h, Nat.and_pow_two_sub_one_eq_mod]

lemma and_mask8 (x : Nat) : x &&& 0xFF = x % 2 ^ 8 := by
  have h : (0xFF : Nat) = 2 ^ 8 - 1 := by norm_num
  rw [h, Nat.and_pow_two_sub_one_eq_mod]

lemma and_mask4 (x : Nat) : x &&& 0xF = x % 2 ^ 4 := by
  have h : (0xF : Nat) = 2 ^ 4 - 1 := by norm_num
  rw [h, Nat.and_pow_two_sub_one_eq_mod]

/-! ### Enumeration facts -/

lemma accountType_toNat_le (t : AccountType) : t.toNat ≤ 10 := by
  cases t <;> decide

lemma universe_toNat_le (u : Universe) : u.toNat ≤ 5 := by
  cases u <;> decide

lemma instanceType_toNat_le (it : InstanceType) : it.toNat ≤ 4 := by
  cases it <;> decide

lemma instanceFlags_toNat_le (fl : InstanceFlags) : fl.toNat ≤ 128 := by
  cases fl <;> decide

lemma accountType_tryFrom_toNat (t : AccountType) : AccountType.tryFrom t.toNat = some t := by
  cases t <;> rfl

lemma universe_tryFrom_toNat (u : Universe) : Universe.tryFrom u.toNat = some u := by
  cases u <;> rfl

lemma instanceType_tryFrom_toNat (it : InstanceType) :
    InstanceType.tryFrom it.toNat = some it := by
  cases it <;> rfl

lemma instanceFlags_tryFrom_toNat (fl : InstanceFlags) :
    InstanceFlags.tryFrom fl.toNat = some fl := by
  cases fl <;> rfl

/-! ### Instance packing facts -/

lemma instance_new_val (it : InstanceType) (fl : InstanceFlags) :
    (Instance.new it fl).val = fl.toNat * 2 ^ 12 + it.toNat := by
  show it.toNat ||| fl.toNat <<< 12 = _
  exact lor_shift_eq_add fl.toNat 12 (lt_of_le_of_lt (instanceType_toNat_le it) (by norm_num))

lemma instance_new_val_lt (it : InstanceType) (fl : InstanceFlags) :
    (Instance.new it fl).val < 2 ^ 20 := by
  cases it <;> cases fl <;> decide

lemma Instance.tryFrom_new_val (it : InstanceType) (fl : InstanceFlags) :
    Instance.tryFrom (Instance.new it fl).val = some (Instance.new it fl) := by
  cases it <;> cases fl <;> decide

lemma Instance.instance_type_new (it : InstanceType) (fl : InstanceFlags) :
    (Instance.new it fl).instance_type = some it := by
  cases it <;> cases fl <;> decide

lemma Instance.flags_new (it : InstanceType) (fl : InstanceFlags) :
    (Instance.new it fl).flags = some fl := by
  cases it <;> cases fl <;> decide

/-! ### SteamID packing facts -/

lemma steamID_new_val (aid : Nat) (i : Instance) (t : AccountType) (u : Universe)
    (ha : aid < 2 ^ 32) (hi : i.val < 2 ^ 20) :
    (SteamID.new aid i t u).val =
      aid + i.val * 2 ^ 32 + t.toNat * 2 ^ 52 + u.toNat * 2 ^ 56 := by
  have ht := accountType_toNat_le t
  have hu := universe_toNat_le u
  show aid ||| i.val <<< 32 ||| t.toNat <<< 52 ||| u.toNat <<< 56 = _
  rw [lor_shift_eq_add i.val 32 ha]
  rw [lor_shift_eq_add t.toNat 52 (by omega)]
  rw [lor_shift_eq_add u.toNat 56 (by omega)]
  ring

lemma steamID_new_val_lt (aid : Nat) (i : Instance) (t : AccountType) (u : Universe)
    (ha : aid < 2 ^ 32) (hi : i.val < 2 ^ 20) :
    (SteamID.new aid i t u).val < 2 ^ 64 := by
  have ht := accountType_toNat_le t
  have hu := universe_toNat_le u
  rw [steamID_new_val aid i t u ha hi]
  omega

lemma SteamID.account_id_new (aid : Nat) (i : Instance) (t : AccountType) (u : Universe)
    (ha : aid < 2 ^ 32) (hi : i.val < 2 ^ 20) :
    (SteamID.new aid i t u).account_id = aid := by
  have ht := accountType_toNat_le t
  have hu := universe_toNat_le u
  show (SteamID.new aid i t u).val &&& 0xFFFFFFFF = aid
  rw [and_mask32, steamID_new_val aid i t u ha hi]
  omega

lemma SteamID.get_instance_new (aid : Nat) (i : Instance) (t : AccountType) (u : Universe)
    (ha : aid < 2 ^ 32) (hi : i.val < 2 ^ 20) :
    (SteamID.new aid i t u).get_instance = Instance.tryFrom i.val := by
  have ht := accountType_toNat_le t
  have hu := universe_toNat_le u
  show Instance.tryFrom ((SteamID.new aid i t u).val >>> 32 &&& 0xFFFFF) = _
  rw [and_mask20, Nat.shiftRight_eq_div_pow, steamID_new_val aid i t u ha hi]
  congr 1
  omega

lemma SteamID.account_type_new (aid : Nat) (i : Instance) (t : AccountType) (u : Universe)
    (ha : aid < 2 ^ 32) (hi : i.val < 2 ^ 20) :
    (SteamID.new aid i t u).account_type = some t := by
  have ht := accountType_toNat_le t
  have hu := universe_toNat_le u
  show AccountType.tryFrom ((SteamID.new aid i t u).val >>> 52 &&& 0xF) = some t
  rw [and_mask4, Nat.shiftRight_eq_div_pow, steamID_new_val aid i t u ha hi]
  rw [show (aid + i.val * 2 ^ 32 + t.toNat * 2 ^ 52 + u.toNat * 2 ^ 56) / 2 ^ 52 % 2 ^ 4
      = t.toNat from by omega]
  exact accountType_tryFrom_toNat t

lemma SteamID.get_universe_new (aid : Nat) (i : Instance) (t : AccountType) (u : Universe)
    (ha : aid < 2 ^ 32) (hi : i.val < 2 ^ 20) :
    (SteamID.new aid i t u).get_universe = some u := by
  have ht := accountType_toNat_le t
  have hu := universe_toNat_le u
  show Universe.tryFrom ((SteamID.new aid i t u).val >>> 56 &&& 0xFF) = some u
  rw [and_mask8, Nat.shiftRight_eq_div_pow, steamID_new_val aid i t u ha hi]
  rw [show (aid + i.val * 2 ^ 32 + t.toNat * 2 ^ 52 + u.toNat * 2 ^ 56) / 2 ^ 56 % 2 ^ 8
      = u.toNat from by omega]
  exact universe_tryFrom_toNat u

/-! ### Digit accumulation lemmas -/

/-- Mathematical value of a most-significant-first list of ASCII digit bytes,
starting from accumulator `acc`. -/
def digitsVal (acc : Nat) (ds : List Nat) : Nat :=
  ds.foldl (fun a b => a * 10 + (b - 48)) acc

lemma digitsVal_nil (acc : Nat) : digitsVal acc [] = acc := rfl

lemma digitsVal_cons (acc b : Nat) (ds : List Nat) :
    digitsVal acc (b :: ds) = digitsVal (acc * 10 + (b - 48)) ds := rfl

lemma digitsVal_le (ds : List Nat) : ∀ acc, acc ≤ digitsVal acc ds := by
  induction ds with
  | nil => intro acc; exact le_refl _
  | cons b ds ih =>
    intro acc
    rw [digitsVal_cons]
    exact le_trans (by omega) (ih _)

lemma steam2_digits_loop_spec : ∀ (ds : List Nat) (acc : Nat),
    (∀ b ∈ ds, 48 ≤ b ∧ b ≤ 57) → acc < 2 ^ 32 →
    steam2_digits_loop acc ds =
      if digitsVal acc ds < 2 ^ 32 then some (digitsVal acc ds) else none := by
  intro ds
  induction ds with
  | nil =>
    intro acc _ ha
    simp only [steam2_digits_loop, digitsVal_nil, if_pos ha]
  | cons b ds ih =>
    intro acc hd ha
    obtain ⟨hb1, hb2⟩ := hd b (List.mem_cons_self _ _)
    have hdig : digit_from_ascii b = some (b - 48) := by
      simp [digit_from_ascii, hb1, hb2]
    have hrest : ∀ x ∈ ds, 48 ≤ x ∧ x ≤ 57 := fun x hx => hd x (List.mem_cons_of_mem _ hx)
    by_cases hlt : acc * 10 + (b - 48) < 2 ^ 32
    · have hmul : checked_mul_u32 acc 10 = some (acc * 10) := by
        simp only [checked_mul_u32, if_pos (show acc * 10 < 2 ^ 32 by omega)]
      have hadd : checked_add_u32 (acc * 10) (b - 48) = some (acc * 10 + (b - 48)) := by
        simp only [checked_add_u32, if_pos hlt]
      simp only [steam2_digits_loop, hdig, hmul, hadd]
      rw [ih _ hrest hlt, digitsVal_cons]
    · have hge : 2 ^ 32 ≤ digitsVal acc (b :: ds) := by
        rw [digitsVal_cons]
        exact le_trans (by omega) (digitsVal_le _ _)
      simp only [steam2_digits_loop, hdig]
      by_cases hm : acc * 10 < 2 ^ 32
      · have hmul : checked_mul_u32 acc 10 = some (acc * 10) := by
          simp only [checked_mul_u32, if_pos hm]
        have hadd : checked_add_u32 (acc * 10) (b - 48) = none := by
          simp only [checked_add_u32, if_neg (show ¬acc * 10 + (b - 48) < 2 ^ 32 by omega)]
        simp only [hmul, hadd]
        rw [if_neg (by omega)]
      · have hmul : checked_mul_u32 acc 10 = none := by
          simp only [checked_mul_u32, if_neg hm]
        simp only [hmul]
        rw [if_neg (by omega)]

/-- Head-byte condition under which `steam3_digits_loop` stops consuming. -/
def non_digit_head : List Nat → Prop
  | [] => True
  | b :: _ => ¬(48 ≤ b ∧ b ≤ 57)

lemma steam3_digits_loop_spec : ∀ (ds rest : List Nat) (acc : Nat),
    (∀ b ∈ ds, 48 ≤ b ∧ b ≤ 57) → acc < 2 ^ 32 → non_digit_head rest →
    steam3_digits_loop acc (ds ++ rest) =
      if digitsVal acc ds < 2 ^ 32 then some (digitsVal acc ds, rest) else none := by
  intro ds
  induction ds with
  | nil =>
    intro rest acc _ ha hs
    cases rest with
    | nil =>
      simp only [List.nil_append, steam3_digits_loop, digitsVal_nil, if_pos ha]
    | cons b rest =>
      simp only [non_digit_head] at hs
      have hdig : digit_from_ascii b = none := by
        simp [digit_from_ascii, hs]
      simp only [List.nil_append, steam3_digits_loop, hdig, digitsVal_nil, if_pos ha]
  | cons b ds ih =>
    intro rest acc hd ha hs
    obtain ⟨hb1, hb2⟩ := hd b (List.mem_cons_self _ _)
    have hdig : digit_from_ascii b = some (b - 48) := by
      simp [digit_from_ascii, hb1, hb2]
    have hrest : ∀ x ∈ ds, 48 ≤ x ∧ x ≤ 57 := fun x hx => hd x (List.mem_cons_of_mem _ hx)
    by_cases hlt : acc * 10 + (b - 48) < 2 ^ 32
    · have hmul : checked_mul_u32 acc 10 = some (acc * 10) := by
        simp only [checked_mul_u32, if_pos (show acc * 10 < 2 ^ 32 by omega)]
      have hadd : checked_add_u32 (acc * 10) (b - 48) = some (acc * 10 + (b - 48)) := by
        simp only [checked_add_u32, if_pos hlt]
      simp only [List.cons_append, steam3_digits_loop, hdig, hmul, hadd, List.append_eq]
      rw [ih _ _ hrest hlt hs, digitsVal_cons]
    · have hge : 2 ^ 32 ≤ digitsVal acc (b :: ds) := by
        rw [digitsVal_cons]
        exact le_trans (by omega) (digitsVal_le _ _)
      simp only [List.cons_append, steam3_digits_loop, hdig]
      by_cases hm : acc * 10 < 2 ^ 32
      · have hmul : checked_mul_u32 acc 10 = some (acc * 10) := by
          simp only [checked_mul_u32, if_pos hm]
        have hadd : checked_add_u32 (acc * 10) (b - 48) = none := by
          simp only [checked_add_u32, if_neg (show ¬acc * 10 + (b - 48) < 2 ^ 32 by omega)]
        simp only [hmul, hadd]
        rw [if_neg (by omega)]
      · have hmul : checked_mul_u32 acc 10 = none := by
          simp only [checked_mul_u32, if_neg hm]
        simp only [hmul]
        rw [if_neg (by omega)]

/-! ### Decimal rendering lemmas -/

lemma decDigitsAux_lt_ten : ∀ (fuel n : Nat), ∀ b ∈ decDigitsAux fuel n, b < 10 := by
  intro fuel
  induction fuel with
  | zero => intro n b hb; simp [decDigitsAux] at hb
  | succ fuel ih =>
    intro n b hb
    rw [decDigitsAux] at hb
    by_cases h0 : n = 0
    · rw [if_pos h0] at hb
      simp at hb
    · rw [if_neg h0] at hb
      rcases List.mem_append.mp hb with h1 | h2
      · exact ih _ b h1
      · have : b = n % 10 := by simpa using h2
        omega

lemma decDigitsAux_foldl : ∀ (fuel n : Nat), n < 10 ^ fuel →
    (decDigitsAux fuel n).foldl (fun a d => a * 10 + d) 0 = n := by
  intro fuel
  induction fuel with
  | zero =>
    intro n h
    have : n = 0 := by simpa using h
    subst this
    rfl
  | succ fuel ih =>
    intro n h
    rw [decDigitsAux]
    by_cases h0 : n = 0
    · rw [if_pos h0, h0]
      rfl
    · rw [if_neg h0, List.foldl_append]
      have hn : n / 10 < 10 ^ fuel := by
        rw [Nat.pow_succ] at h
        omega
      rw [ih (n / 10) hn]
      show n / 10 * 10 + n % 10 = n
      omega

lemma decDigitsAux_length : ∀ (fuel n k : Nat), n < 10 ^ k →
    (decDigitsAux fuel n).length ≤ k := by
  intro fuel
  induction fuel with
  | zero => intro n k _; simp [decDigitsAux]
  | succ fuel ih =>
    intro n k h
    rw [decDigitsAux]
    by_cases h0 : n = 0
    · simp [h0]
    · rw [if_neg h0, List.length_append]
      cases k with
      | zero =>
        simp at h
        omega
      | succ k =>
        have hk : n / 10 < 10 ^ k := by
          rw [Nat.pow_succ] at h
          omega
        have := ih (n / 10) k hk
        simp only [List.length_singleton]
        omega

lemma decimalBytes_digit_bytes (n : Nat) : ∀ b ∈ decimalBytes n, 48 ≤ b ∧ b ≤ 57 := by
  intro b hb
  rw [decimalBytes] at hb
  by_cases h0 : n = 0
  · rw [if_pos h0] at hb
    simp at hb
    omega
  · rw [if_neg h0] at hb
    simp only [List.mem_map] at hb
    obtain ⟨d, hd, rfl⟩ := hb
    have := decDigitsAux_lt_ten 20 n d hd
    omega

lemma decDigitsAux_ne_nil (fuel n : Nat) (h0 : n ≠ 0) :
    decDigitsAux (fuel + 1) n ≠ [] := by
  rw [decDigitsAux, if_neg h0]
  simp

lemma decimalBytes_ne_nil (n : Nat) : decimalBytes n ≠ [] := by
  rw [decimalBytes]
  by_cases h0 : n = 0
  · rw [if_pos h0]
    simp
  · rw [if_neg h0]
    intro hmap
    rw [List.map_eq_nil_iff] at hmap
    exact decDigitsAux_ne_nil 19 n h0 hmap

lemma digitsVal_map_add48 : ∀ (L : List Nat) (acc : Nat),
    digitsVal acc (L.map (fun d => d + 48)) = L.foldl (fun a d => a * 10 + d) acc := by
  intro L
  induction L with
  | nil => intro acc; rfl
  | cons d L ih =>
    intro acc
    simp only [List.map_cons, digitsVal_cons, List.foldl_cons]
    rw [show d + 48 - 48 = d from by omega]
    exact ih _

lemma decimalBytes_val (n : Nat) (h : n < 10 ^ 20) : digitsVal 0 (decimalBytes n) = n := by
  rw [decimalBytes]
  by_cases h0 : n = 0
  · rw [if_pos h0, h0]
    rfl
  · rw [if_neg h0, digitsVal_map_add48]
    exact decDigitsAux_foldl 20 n h

lemma decimalBytes_length_le (n k : Nat) (h : n < 10 ^ k) (hk : 0 < k) :
    (decimalBytes n).length ≤ k := by
  rw [decimalBytes]
  by_cases h0 : n = 0
  · rw [if_pos h0]
    simpa using hk
  · rw [if_neg h0, List.length_map]
    exact decDigitsAux_length 20 n k h

lemma decimalBytes_universe (u : Universe) : decimalBytes u.toNat = [48 + u.toNat] := by
  cases u <;> decide

/-! ### Structured parsing lemmas -/

lemma universe_tryFrom_le {n : Nat} {u : Universe} (h : Universe.tryFrom n = some u) :
    n ≤ 5 := by
  by_contra hgt
  have heq : n = (n - 6) + 6 := by omega
  rw [heq, show Universe.tryFrom (n - 6 + 6) = none from rfl] at h
  cases h

lemma instanceType_tryFrom_le {n : Nat} {it : InstanceType}
    (h : InstanceType.tryFrom n = some it) : n ≤ 4 := by
  by_contra hgt
  have heq : n = (n - 5) + 5 := by omega
  rw [heq, show InstanceType.tryFrom (n - 5 + 5) = none from rfl] at h
  cases h

lemma from_steam2_compose (ud a n : Nat) (u1 : Universe)
    (hu : Universe.tryFrom ud = some u1) (ha : a ≤ 1) (hn : n < 2 ^ 32) :
    SteamID.from_steam2
        (83 :: 84 :: 69 :: 65 :: 77 :: 95 :: (48 + ud) :: 58 :: (48 + a) :: 58 :: decimalBytes n)
      = some (SteamID.new ((n <<< 1) % 2 ^ 32 ||| a)
          (Instance.new InstanceType.Desktop InstanceFlags.None) AccountType.Individual
          (if u1 = Universe.Invalid then Universe.Public else u1)) := by
  have hud : ud ≤ 5 := universe_tryFrom_le hu
  have hdu : digit_from_ascii (48 + ud) = some ud := by
    simp only [digit_from_ascii, if_pos (show 48 ≤ 48 + ud ∧ 48 + ud ≤ 57 by omega)]
    congr 1
    omega
  have hab : auth_server_byte (48 + a) = some a := by
    interval_cases a <;> rfl
  obtain ⟨d0, ds, hdec⟩ := List.exists_cons_of_ne_nil (decimalBytes_ne_nil n)
  have hdigits := decimalBytes_digit_bytes n
  have hd0 : 48 ≤ d0 ∧ d0 ≤ 57 := hdigits d0 (by rw [hdec]; exact List.mem_cons_self _ _)
  have hfd : digit_from_ascii d0 = some (d0 - 48) := by
    simp only [digit_from_ascii, if_pos hd0]
  have hdsdig : ∀ b ∈ ds, 48 ≤ b ∧ b ≤ 57 := by
    intro b hb
    exact hdigits b (by rw [hdec]; exact List.mem_cons_of_mem _ hb)
  have hval : digitsVal (d0 - 48) ds = n := by
    have h1 : digitsVal 0 (decimalBytes n) = n := decimalBytes_val n (by omega)
    rw [hdec, digitsVal_cons] at h1
    simpa using h1
  have hloop : steam2_digits_loop (d0 - 48) ds = some n := by
    rw [steam2_digits_loop_spec ds (d0 - 48) hdsdig (by omega), hval, if_pos hn]
  have hlen : (decimalBytes n).length ≤ 10 :=
    decimalBytes_length_le n 10 (by omega) (by omega)
  rw [hdec] at hlen
  simp at hlen
  simp only [SteamID.from_steam2, hdu, hu, hdec, hfd, hloop, hab]
  simp [hlen]

lemma from_steam3_compose_noinst (tc ud n : Nat) (t : AccountType) (fl : InstanceFlags)
    (u1 : Universe) (hc : char_to_account_type tc = some (t, fl))
    (hu : Universe.tryFrom ud = some u1) (hn : n < 2 ^ 32) :
    SteamID.from_steam3 (91 :: tc :: 58 :: (48 + ud) :: 58 :: (decimalBytes n ++ [93]))
      = some (SteamID.new n (Instance.new (resolve_instance_type none t) fl) t u1) := by
  have hud : ud ≤ 5 := universe_tryFrom_le hu
  have hdu : digit_from_ascii (48 + ud) = some ud := by
    simp only [digit_from_ascii, if_pos (show 48 ≤ 48 + ud ∧ 48 + ud ≤ 57 by omega)]
    congr 1
    omega
  obtain ⟨d0, ds, hdec⟩ := List.exists_cons_of_ne_nil (decimalBytes_ne_nil n)
  have hdigits := decimalBytes_digit_bytes n
  have hd0 : 48 ≤ d0 ∧ d0 ≤ 57 := hdigits d0 (by rw [hdec]; exact List.mem_cons_self _ _)
  have hfd : digit_from_ascii d0 = some (d0 - 48) := by
    simp only [digit_from_ascii, if_pos hd0]
  have hdsdig : ∀ b ∈ ds, 48 ≤ b ∧ b ≤ 57 := by
    intro b hb
    exact hdigits b (by rw [hdec]; exact List.mem_cons_of_mem _ hb)
  have hval : digitsVal (d0 - 48) ds = n := by
    have h1 : digitsVal 0 (decimalBytes n) = n := decimalBytes_val n (by omega)
    rw [hdec, digitsVal_cons] at h1
    simpa using h1
  have hloop : steam3_digits_loop (d0 - 48) (ds ++ [93]) = some (n, [93]) := by
    rw [steam3_digits_loop_spec ds [93] (d0 - 48) hdsdig (by omega) (by simp [non_digit_head]),
      hval, if_pos hn]
  simp only [SteamID.from_steam3, hc, hdu, hu, hdec, List.cons_append, hfd, hloop]
  simp

lemma from_steam3_compose_inst (tc ud n i0 : Nat) (t : AccountType) (fl : InstanceFlags)
    (u1 : Universe) (it : InstanceType)
    (hc : char_to_account_type tc = some (t, fl)) (hu : Universe.tryFrom ud = some u1)
    (hn : n < 2 ^ 32) (hit : InstanceType.tryFrom i0 = some it) :
    SteamID.from_steam3
        (91 :: tc :: 58 :: (48 + ud) :: 58 :: (decimalBytes n ++ 58 :: (decimalBytes i0 ++ [93])))
      = some (SteamID.new n (Instance.new (resolve_instance_type (some it) t) fl) t u1) := by
  have hud : ud ≤ 5 := universe_tryFrom_le hu
  have hi0 : i0 ≤ 4 := instanceType_tryFrom_le hit
  have hdu : digit_from_ascii (48 + ud) = some ud := by
    simp only [digit_from_ascii, if_pos (show 48 ≤ 48 + ud ∧ 48 + ud ≤ 57 by omega)]
    congr 1
    omega
  obtain ⟨d0, ds, hdec⟩ := List.exists_cons_of_ne_nil (decimalBytes_ne_nil n)
  have hdigits := decimalBytes_digit_bytes n
  have hd0 : 48 ≤ d0 ∧ d0 ≤ 57 := hdigits d0 (by rw [hdec]; exact List.mem_cons_self _ _)
  have hfd : digit_from_ascii d0 = some (d0 - 48) := by
    simp only [digit_from_ascii, if_pos hd0]
  have hdsdig : ∀ b ∈ ds, 48 ≤ b ∧ b ≤ 57 := by
    intro b hb
    exact hdigits b (by rw [hdec]; exact List.mem_cons_of_mem _ hb)
  have hval : digitsVal (d0 - 48) ds = n := by
    have h1 : digitsVal 0 (decimalBytes n) = n := decimalBytes_val n (by omega)
    rw [hdec, digitsVal_cons] at h1
    simpa using h1
  obtain ⟨g0, gs, hgdec⟩ := List.exists_cons_of_ne_nil (decimalBytes_ne_nil i0)
  have hgdigits := decimalBytes_digit_bytes i0
  have hg0 : 48 ≤ g0 ∧ g0 ≤ 57 := hgdigits g0 (by rw [hgdec]; exact List.mem_cons_self _ _)
  have hfg : digit_from_ascii g0 = some (g0 - 48) := by
    simp only [digit_from_ascii, if_pos hg0]
  have hgsdig : ∀ b ∈ gs, 48 ≤ b ∧ b ≤ 57 := by
    intro b hb
    exact hgdigits b (by rw [hgdec]; exact List.mem_cons_of_mem _ hb)
  have hgval : digitsVal (g0 - 48) gs = i0 := by
    have h1 : digitsVal 0 (decimalBytes i0) = i0 := decimalBytes_val i0 (by omega)
    rw [hgdec, digitsVal_cons] at h1
    simpa using h1
  have hloop : steam3_digits_loop (d0 - 48) (ds ++ 58 :: (decimalBytes i0 ++ [93]))
      = some (n, 58 :: (decimalBytes i0 ++ [93])) := by
    rw [steam3_digits_loop_spec ds (58 :: (decimalBytes i0 ++ [93])) (d0 - 48) hdsdig
      (by omega) (by simp [non_digit_head]), hval, if_pos hn]
  have hgloop : steam3_digits_loop (g0 - 48) (gs ++ [93]) = some (i0, [93]) := by
    rw [steam3_digits_loop_spec gs [93] (g0 - 48) hgsdig (by omega) (by simp [non_digit_head]),
      hgval, if_pos (by omega)]
  rw [hgdec] at hloop
  simp only [List.cons_append] at hloop
  simp only [SteamID.from_steam3, hc, hdu, hu, hdec, List.cons_append, hfd, hgdec, hloop,
    hfg, hgloop, hit]
  simp

/-! ### Characterizations of the validating conversions -/

lemma instanceType_tryFrom_isSome (x : Nat) :
    (InstanceType.tryFrom x).isSome = true ↔ (x = 0 ∨ x = 1 ∨ x = 2 ∨ x = 4) := by
  unfold InstanceType.tryFrom
  split <;> simp_all

lemma instanceFlags_tryFrom_isSome (x : Nat) :
    (InstanceFlags.tryFrom x).isSome = true ↔ (x = 0 ∨ x = 128 ∨ x = 64 ∨ x = 32) := by
  unfold InstanceFlags.tryFrom
  split <;> simp_all

lemma accountType_tryFrom_isSome (x : Nat) :
    (AccountType.tryFrom x).isSome = true ↔ x ≤ 10 := by
  unfold AccountType.tryFrom
  split <;> simp_all
  omega

lemma universe_tryFrom_isSome (x : Nat) :
    (Universe.tryFrom x).isSome = true ↔ x ≤ 5 := by
  unfold Universe.tryFrom
  split <;> simp_all
  omega

/-! ### Claim C3: bit-layout round-trip -/

/-- C3: for every valid field tuple (a `u32` account id, an instance built by
`Instance::new` from a legal `InstanceType` and `InstanceFlags`, an
`AccountType` and a `Universe`), the SteamID built by `SteamID::new` returns
exactly those fields from `account_id()`, `instance()`, `account_type()` and
`universe()` (the panicking accessors succeed, yielding `some`). -/
theorem C3_bit_layout_roundtrip (aid : Nat) (it : InstanceType) (fl : InstanceFlags)
    (t : AccountType) (u : Universe) (ha : aid < 2 ^ 32) :
    (SteamID.new aid (Instance.new it fl) t u).account_id = aid ∧
    (SteamID.new aid (Instance.new it fl) t u).get_instance = some (Instance.new it fl) ∧
    (SteamID.new aid (Instance.new it fl) t u).account_type = some t ∧
    (SteamID.new aid (Instance.new it fl) t u).get_universe = some u := by
  have hi := instance_new_val_lt it fl
  refine ⟨SteamID.account_id_new aid _ t u ha hi, ?_,
    SteamID.account_type_new aid _ t u ha hi, SteamID.get_universe_new aid _ t u ha hi⟩
  rw [SteamID.get_instance_new aid _ t u ha hi]
  exact Instance.tryFrom_new_val it fl

/-- C3 witness: instantiation at the concrete tuple used by the repository's
`test_manual_construction`. -/
theorem C3_bit_layout_roundtrip_witness :
    (1234 : Nat) < 2 ^ 32 ∧
    ((SteamID.new 1234 (Instance.new InstanceType.Console InstanceFlags.None)
        AccountType.Chat Universe.Beta).account_id = 1234 ∧
     (SteamID.new 1234 (Instance.new InstanceType.Console InstanceFlags.None)
        AccountType.Chat Universe.Beta).get_instance
          = some (Instance.new InstanceType.Console InstanceFlags.None) ∧
     (SteamID.new 1234 (Instance.new InstanceType.Console InstanceFlags.None)
        AccountType.Chat Universe.Beta).account_type = some AccountType.Chat ∧
     (SteamID.new 1234 (Instance.new InstanceType.Console InstanceFlags.None)
        AccountType.Chat Universe.Beta).get_universe = some Universe.Beta) :=
  ⟨by decide, C3_bit_layout_roundtrip 1234 InstanceType.Console InstanceFlags.None
    AccountType.Chat Universe.Beta (by decide)⟩

/-! ### Claim C2: the validity invariant has a hole -/

/-- C2: counterexample to the validity invariant.  `Instance::try_from`
accepts the 21-bit value 0x100000 = 1048576 because it truncates
`(value >> 12) as u8`; feeding that instance to `set_instance` on a valid
SteamID (account type AnonUser = 10) leaves account-type bits 11, and the
`account_type()` accessor then hits its failure branch (a panic in Rust). -/
theorem C2_invariant_violated :
    Instance.tryFrom 1048576 = some ⟨1048576⟩ ∧
    ((SteamID.new 0 (Instance.new InstanceType.All InstanceFlags.None)
        AccountType.AnonUser Universe.Public).set_instance ⟨1048576⟩).val >>> 52 &&& 0xF = 11 ∧
    ((SteamID.new 0 (Instance.new InstanceType.All InstanceFlags.None)
        AccountType.AnonUser Universe.Public).set_instance ⟨1048576⟩).account_type = none := by
  decide

/-! ### Claim C4: universe digit 5 -/

/-- C4: counterexample.  Both parsers accept a universe digit 5 (mapping it
to `Universe::RC`), although the claim (and the source's own grammar
comments `[0-4]`) say the digit 5 must be rejected.  The inputs are
"STEAM_5:0:123" and "[U:5:123]" as ASCII bytes. -/
theorem C4_universe_digit_five_accepted :
    SteamID.from_steam2 [83, 84, 69, 65, 77, 95, 53, 58, 48, 58, 49, 50, 51]
      = some (SteamID.new 246 (Instance.new InstanceType.Desktop InstanceFlags.None)
          AccountType.Individual Universe.RC) ∧
    SteamID.from_steam3 [91, 85, 58, 53, 58, 49, 50, 51, 93]
      = some (SteamID.new 123 (Instance.new InstanceType.Desktop InstanceFlags.None)
          AccountType.Individual Universe.RC) := by
  decide

/-! ### Claim C5: steam3 account-number length -/

/-- C5: counterexample.  `from_steam3` has no ten-digit limit on the
account-number field (only overflow checking), so the eleven-digit input
"[U:1:00000000001]" parses successfully to account id 1, although the claim
(and the source's own grammar comment `[0-9]{1,10}`) say it must fail. -/
theorem C5_eleven_digits_accepted :
    SteamID.from_steam3
        [91, 85, 58, 49, 58, 48, 48, 48, 48, 48, 48, 48, 48, 48, 48, 49, 93]
      = some (SteamID.new 1 (Instance.new InstanceType.Desktop InstanceFlags.None)
          AccountType.Individual Universe.Public) := by
  decide

/-! ### Claim C7: raw 64-bit validation -/

/-- Legality of the four bit fields of a raw 64-bit value, stated the way the
claim states it: instance-type bits 32-43 in {0,1,2,4}, instance-flag bits
44-51 in {0, 0x80, 0x40, 0x20}, account-type bits 52-55 in 0..=10, universe
bits 56-63 in 0..=5. -/
def raw_fields_legal (value : Nat) : Prop :=
  (value / 2 ^ 32 % 2 ^ 12 = 0 ∨ value / 2 ^ 32 % 2 ^ 12 = 1 ∨
    value / 2 ^ 32 % 2 ^ 12 = 2 ∨ value / 2 ^ 32 % 2 ^ 12 = 4) ∧
  (value / 2 ^ 44 % 2 ^ 8 = 0 ∨ value / 2 ^ 44 % 2 ^ 8 = 128 ∨
    value / 2 ^ 44 % 2 ^ 8 = 64 ∨ value / 2 ^ 44 % 2 ^ 8 = 32) ∧
  value / 2 ^ 52 % 2 ^ 4 ≤ 10 ∧
  value / 2 ^ 56 % 2 ^ 8 ≤ 5

instance raw_fields_legal_decidable (value : Nat) : Decidable (raw_fields_legal value) := by
  unfold raw_fields_legal
  infer_instance

/-- C7: `from_steam64` (the `TryFrom<u64>` implementation) succeeds exactly
when all four extracted bit fields are legal, and then returns the SteamID
wrapping the unchanged input value; it fails on any out-of-range field. -/
theorem C7_from_steam64_validation (value : Nat) (_hv : value < 2 ^ 64) :
    SteamID.from_steam64 value =
      if raw_fields_legal value then some ⟨value⟩ else none := by
  have h20 : value >>> 32 &&& 0xFFFFF = value / 2 ^ 32 % 2 ^ 20 := by
    rw [Nat.shiftRight_eq_div_pow, and_mask20]
  have hitarg : value / 2 ^ 32 % 2 ^ 20 &&& 0xFFF = value / 2 ^ 32 % 2 ^ 12 := by
    rw [and_mask12]
    omega
  have hflarg : (value / 2 ^ 32 % 2 ^ 20) >>> 12 % 256 = value / 2 ^ 44 % 2 ^ 8 := by
    rw [Nat.shiftRight_eq_div_pow]
    omega
  have hat : value >>> 52 &&& 0xF = value / 2 ^ 52 % 2 ^ 4 := by
    rw [Nat.shiftRight_eq_div_pow, and_mask4]
  have hun : value >>> 56 &&& 0xFF = value / 2 ^ 56 % 2 ^ 8 := by
    rw [Nat.shiftRight_eq_div_pow, and_mask8]
  unfold SteamID.from_steam64 SteamID.tryFrom Instance.tryFrom
  rw [h20, hitarg, hflarg, hat, hun]
  by_cases h1 : value / 2 ^ 32 % 2 ^ 12 = 0 ∨ value / 2 ^ 32 % 2 ^ 12 = 1 ∨
      value / 2 ^ 32 % 2 ^ 12 = 2 ∨ value / 2 ^ 32 % 2 ^ 12 = 4
  · obtain ⟨it, hit⟩ := Option.isSome_iff_exists.mp ((instanceType_tryFrom_isSome _).mpr h1)
    simp only [hit]
    by_cases h2 : value / 2 ^ 44 % 2 ^ 8 = 0 ∨ value / 2 ^ 44 % 2 ^ 8 = 128 ∨
        value / 2 ^ 44 % 2 ^ 8 = 64 ∨ value / 2 ^ 44 % 2 ^ 8 = 32
    · obtain ⟨fl, hfl⟩ := Option.isSome_iff_exists.mp ((instanceFlags_tryFrom_isSome _).mpr h2)
      simp only [hfl]
      by_cases h3 : value / 2 ^ 52 % 2 ^ 4 ≤ 10
      · obtain ⟨t, ht⟩ := Option.isSome_iff_exists.mp ((accountType_tryFrom_isSome _).mpr h3)
        simp only [ht]
        by_cases h4 : value / 2 ^ 56 % 2 ^ 8 ≤ 5
        · obtain ⟨u, hu⟩ := Option.isSome_iff_exists.mp ((universe_tryFrom_isSome _).mpr h4)
          simp only [hu]
          rw [if_pos ⟨h1, h2, h3, h4⟩]
        · have hnone : Universe.tryFrom (value / 2 ^ 56 % 2 ^ 8) = none :=
            Option.not_isSome_iff_eq_none.mp (by rw [universe_tryFrom_isSome]; exact h4)
          simp only [hnone]
          rw [if_neg (fun hleg => h4 hleg.2.2.2)]
      · have hnone : AccountType.tryFrom (value / 2 ^ 52 % 2 ^ 4) = none :=
          Option.not_isSome_iff_eq_none.mp (by rw [accountType_tryFrom_isSome]; exact h3)
        simp only [hnone]
        rw [if_neg (fun hleg => h3 hleg.2.2.1)]
    · have hnone : InstanceFlags.tryFrom (value / 2 ^ 44 % 2 ^ 8) = none :=
        Option.not_isSome_iff_eq_none.mp (by rw [instanceFlags_tryFrom_isSome]; exact h2)
      simp only [hnone]
      rw [if_neg (fun hleg => h2 hleg.2.1)]
  · have hnone : InstanceType.tryFrom (value / 2 ^ 32 % 2 ^ 12) = none :=
      Option.not_isSome_iff_eq_none.mp (by rw [instanceType_tryFrom_isSome]; exact h1)
    simp only [hnone]
    rw [if_neg (fun hleg => h1 hleg.1)]

/-- C7 witness: the raw value 103582791432294076 from the repository's
`test_from_u64` is legal and decodes to itself; the instantiation discharges
the `u64` bound. -/
theorem C7_from_steam64_validation_witness :
    (103582791432294076 : Nat) < 2 ^ 64 ∧
    SteamID.from_steam64 103582791432294076 =
      if raw_fields_legal 103582791432294076 then some ⟨103582791432294076⟩ else none :=
  ⟨by decide, C7_from_steam64_validation 103582791432294076 (by decide)⟩

/-! ### Claim C6: steam2 parse postcondition -/

/-- C6: every well-formed steam2 input `STEAM_u:a:n` (universe digit `u`
accepted by the parser, auth bit `a`, decimal numeral `n`) parses to a
SteamID with account id `2*n + a`, account type Individual, instance
Desktop/None, and the digit's universe — except that digit 0 is silently
coerced to Public. -/
theorem C6_steam2_postcondition (ud a n : Nat) (u1 : Universe)
    (hu : Universe.tryFrom ud = some u1) (ha : a ≤ 1) (hn : n < 2 ^ 31) :
    ∃ id, SteamID.from_steam2
        (83 :: 84 :: 69 :: 65 :: 77 :: 95 :: (48 + ud) :: 58 :: (48 + a) :: 58 :: decimalBytes n)
        = some id ∧
      id.account_id = 2 * n + a ∧
      id.account_type = some AccountType.Individual ∧
      id.get_instance = some (Instance.new InstanceType.Desktop InstanceFlags.None) ∧
      id.get_universe = some (if u1 = Universe.Invalid then Universe.Public else u1) := by
  have hcomp := from_steam2_compose ud a n u1 hu ha (by omega)
  have haid : (n <<< 1) % 2 ^ 32 ||| a = 2 * n + a := by
    rw [Nat.shiftLeft_eq,
      show n * 2 ^ 1 % 2 ^ 32 = 2 ^ 1 * n from by omega,
      (Nat.mul_add_lt_is_or (show a < 2 ^ 1 by omega) n).symm]
  rw [haid] at hcomp
  have hlt : 2 * n + a < 2 ^ 32 := by omega
  have hi := instance_new_val_lt InstanceType.Desktop InstanceFlags.None
  refine ⟨_, hcomp, SteamID.account_id_new _ _ _ _ hlt hi,
    SteamID.account_type_new _ _ _ _ hlt hi, ?_, SteamID.get_universe_new _ _ _ _ hlt hi⟩
  rw [SteamID.get_instance_new _ _ _ _ hlt hi]
  exact Instance.tryFrom_new_val _ _

/-- C6 witness: the universe-0 coercion example "STEAM_0:0:4491990" from the
spec yields universe Public and account id 8983980. -/
theorem C6_steam2_postcondition_witness :
    Universe.tryFrom 0 = some Universe.Invalid ∧ (0 : Nat) ≤ 1 ∧
      (4491990 : Nat) < 2 ^ 31 ∧
    (∃ id, SteamID.from_steam2
        (83 :: 84 :: 69 :: 65 :: 77 :: 95 :: (48 + 0) :: 58 :: (48 + 0) :: 58
          :: decimalBytes 4491990) = some id ∧
      id.account_id = 2 * 4491990 + 0 ∧
      id.account_type = some AccountType.Individual ∧
      id.get_instance = some (Instance.new InstanceType.Desktop InstanceFlags.None) ∧
      id.get_universe
        = some (if Universe.Invalid = Universe.Invalid then Universe.Public
            else Universe.Invalid)) :=
  ⟨by decide, by decide, by decide,
    C6_steam2_postcondition 0 0 4491990 Universe.Invalid (by decide) (by decide) (by decide)⟩

/-! ### Claim C8: steam2 length and overflow rejection -/

/-- C8: `from_steam2` rejects an account-number field longer than ten bytes
before accumulating (whatever the bytes are), rejects any numeral of at most
ten digits whose value overflows 32 bits via the checked arithmetic, and in
particular rejects "STEAM_0:0:9999999999". -/
theorem C8_steam2_overflow_and_length :
    (∀ (ub ab : Nat) (tail : List Nat), 10 < tail.length →
      SteamID.from_steam2 (83 :: 84 :: 69 :: 65 :: 77 :: 95 :: ub :: 58 :: ab :: 58 :: tail)
        = none) ∧
    (∀ (ud a n : Nat) (u1 : Universe), Universe.tryFrom ud = some u1 → a ≤ 1 →
      2 ^ 32 ≤ n → n < 10 ^ 10 →
      SteamID.from_steam2
        (83 :: 84 :: 69 :: 65 :: 77 :: 95 :: (48 + ud) :: 58 :: (48 + a) :: 58 :: decimalBytes n)
        = none) ∧
    SteamID.from_steam2 [83, 84, 69, 65, 77, 95, 48, 58, 48, 58,
      57, 57, 57, 57, 57, 57, 57, 57, 57, 57] = none := by
  refine ⟨?_, ?_, by decide⟩
  · intro ub ab tail hlen
    have hnotle : ¬tail.length ≤ 10 := by omega
    cases hdu : digit_from_ascii ub with
    | none => simp [SteamID.from_steam2, hdu]
    | some d =>
      cases htu : Universe.tryFrom d with
      | none => simp [SteamID.from_steam2, hdu, htu]
      | some u1 =>
        cases hab : auth_server_byte ab with
        | none => simp [SteamID.from_steam2, hdu, htu, hab]
        | some a => simp [SteamID.from_steam2, hdu, htu, hab, hnotle]
  · intro ud a n u1 hu ha hge hlt10
    have hud : ud ≤ 5 := universe_tryFrom_le hu
    have hdu : digit_from_ascii (48 + ud) = some ud := by
      simp only [digit_from_ascii, if_pos (show 48 ≤ 48 + ud ∧ 48 + ud ≤ 57 by omega)]
      congr 1
      omega
    have hab : auth_server_byte (48 + a) = some a := by
      interval_cases a <;> rfl
    obtain ⟨d0, ds, hdec⟩ := List.exists_cons_of_ne_nil (decimalBytes_ne_nil n)
    have hdigits := decimalBytes_digit_bytes n
    have hd0 : 48 ≤ d0 ∧ d0 ≤ 57 := hdigits d0 (by rw [hdec]; exact List.mem_cons_self _ _)
    have hfd : digit_from_ascii d0 = some (d0 - 48) := by
      simp only [digit_from_ascii, if_pos hd0]
    have hdsdig : ∀ b ∈ ds, 48 ≤ b ∧ b ≤ 57 := by
      intro b hb
      exact hdigits b (by rw [hdec]; exact List.mem_cons_of_mem _ hb)
    have hval : digitsVal (d0 - 48) ds = n := by
      have h1 : digitsVal 0 (decimalBytes n) = n := decimalBytes_val n (by omega)
      rw [hdec, digitsVal_cons] at h1
      simpa using h1
    have hloop : steam2_digits_loop (d0 - 48) ds = none := by
      rw [steam2_digits_loop_spec ds (d0 - 48) hdsdig (by omega), hval, if_neg (by omega)]
    have hlen : (decimalBytes n).length ≤ 10 :=
      decimalBytes_length_le n 10 hlt10 (by omega)
    rw [hdec] at hlen
    simp at hlen
    simp only [SteamID.from_steam2, hdu, hu, hdec, hfd, hloop, hab]
    simp [hlen]

/-- C8 witness: instantiations of the two universal parts — an
eleven-byte account field ("STEAM_0:0:00000000000") and the overflowing
ten-digit numeral 4294967296. -/
theorem C8_steam2_overflow_and_length_witness :
    SteamID.from_steam2 (83 :: 84 :: 69 :: 65 :: 77 :: 95 :: 48 :: 58 :: 48 :: 58
      :: [48, 48, 48, 48, 48, 48, 48, 48, 48, 48, 48]) = none ∧
    SteamID.from_steam2 (83 :: 84 :: 69 :: 65 :: 77 :: 95 :: (48 + 0) :: 58 :: (48 + 0) :: 58
      :: decimalBytes 4294967296) = none :=
  ⟨C8_steam2_overflow_and_length.1 48 48 _ (by decide),
    C8_steam2_overflow_and_length.2.1 0 0 4294967296 Universe.Invalid (by decide) (by decide)
      (by decide) (by decide)⟩

/-! ### Claim C10: steam2 top-bit loss in the final shift -/

/-- C10: for a numeral `n` with `2^31 ≤ n < 2^32`, `from_steam2` still
succeeds (the checked accumulation only guards the numeral itself) and the
final `account_id << 1 | auth` wraps, producing `(2*n + a) mod 2^32`. -/
theorem C10_steam2_top_bit_loss (ud a n : Nat) (u1 : Universe)
    (hu : Universe.tryFrom ud = some u1) (ha : a ≤ 1)
    (hlo : 2 ^ 31 ≤ n) (hhi : n < 2 ^ 32) :
    ∃ id, SteamID.from_steam2
        (83 :: 84 :: 69 :: 65 :: 77 :: 95 :: (48 + ud) :: 58 :: (48 + a) :: 58 :: decimalBytes n)
        = some id ∧
      id.account_id = (2 * n + a) % 2 ^ 32 := by
  have hcomp := from_steam2_compose ud a n u1 hu ha hhi
  have haid : (n <<< 1) % 2 ^ 32 ||| a = (2 * n + a) % 2 ^ 32 := by
    rw [Nat.shiftLeft_eq,
      show n * 2 ^ 1 % 2 ^ 32 = 2 ^ 1 * (n - 2 ^ 31) from by omega,
      (Nat.mul_add_lt_is_or (show a < 2 ^ 1 by omega) (n - 2 ^ 31)).symm]
    omega
  rw [haid] at hcomp
  have hi := instance_new_val_lt InstanceType.Desktop InstanceFlags.None
  exact ⟨_, hcomp, SteamID.account_id_new _ _ _ _ (by omega) hi⟩

/-- C10 witness: "STEAM_1:1:2147483648" succeeds with the top bit dropped,
yielding account id 1. -/
theorem C10_steam2_top_bit_loss_witness :
    ∃ id, SteamID.from_steam2
        (83 :: 84 :: 69 :: 65 :: 77 :: 95 :: (48 + 1) :: 58 :: (48 + 1) :: 58
          :: decimalBytes 2147483648) = some id ∧
      id.account_id = (2 * 2147483648 + 1) % 2 ^ 32 :=
  C10_steam2_top_bit_loss 1 1 2147483648 Universe.Public (by decide) (by decide)
    (by decide) (by decide)

/-! ### Instance-type resolution lemmas -/

lemma resolve_instance_type_none (t : AccountType) :
    resolve_instance_type none t
      = if t = AccountType.Individual then InstanceType.Desktop else InstanceType.All := by
  cases t <;> rfl

lemma resolve_instance_type_clan_chat (x : InstanceType) (t : AccountType)
    (h : t = AccountType.Clan ∨ t = AccountType.Chat) :
    resolve_instance_type (some x) t = InstanceType.All := by
  rcases h with rfl | rfl <;> rfl

lemma resolve_instance_type_of_render (t : AccountType) (it x : InstanceType)
    (h : render_instance t it = true) : resolve_instance_type (some x) t = x := by
  cases t <;> simp_all [render_instance, resolve_instance_type]

/-! ### Claim C9: steam3 instance resolution -/

/-- C9: with no explicit instance suffix, `from_steam3` resolves the instance
type to Desktop for Individual and to All for every other account type; with
an explicit (validated) suffix and account type Clan or Chat, the instance
type is forced to All; and concretely "[L:2:123]" yields instance All/Lobby,
account type Chat, universe Beta, account id 123. -/
theorem C9_steam3_instance_resolution :
    (∀ (tc ud n : Nat) (t : AccountType) (fl : InstanceFlags) (u1 : Universe),
      char_to_account_type tc = some (t, fl) → Universe.tryFrom ud = some u1 → n < 2 ^ 32 →
      SteamID.from_steam3 (91 :: tc :: 58 :: (48 + ud) :: 58 :: (decimalBytes n ++ [93]))
        = some (SteamID.new n
            (Instance.new
              (if t = AccountType.Individual then InstanceType.Desktop else InstanceType.All)
              fl) t u1)) ∧
    (∀ (tc ud n i0 : Nat) (t : AccountType) (fl : InstanceFlags) (u1 : Universe)
        (it : InstanceType),
      char_to_account_type tc = some (t, fl) → Universe.tryFrom ud = some u1 → n < 2 ^ 32 →
      InstanceType.tryFrom i0 = some it →
      (t = AccountType.Clan ∨ t = AccountType.Chat) →
      SteamID.from_steam3
          (91 :: tc :: 58 :: (48 + ud) :: 58
            :: (decimalBytes n ++ 58 :: (decimalBytes i0 ++ [93])))
        = some (SteamID.new n (Instance.new InstanceType.All fl) t u1)) ∧
    SteamID.from_steam3 [91, 76, 58, 50, 58, 49, 50, 51, 93]
      = some (SteamID.new 123 (Instance.new InstanceType.All InstanceFlags.Lobby)
          AccountType.Chat Universe.Beta) := by
  refine ⟨?_, ?_, by decide⟩
  · intro tc ud n t fl u1 hc hu hn
    rw [from_steam3_compose_noinst tc ud n t fl u1 hc hu hn, resolve_instance_type_none]
  · intro tc ud n i0 t fl u1 it hc hu hn hit hcc
    rw [from_steam3_compose_inst tc ud n i0 t fl u1 it hc hu hn hit,
      resolve_instance_type_clan_chat it t hcc]

/-- C9 witness: instantiations of the two universal parts at "[U:1:123]"
(default Desktop for Individual) and "[c:3:123:1]" (explicit instance 1
forced to All for Chat). -/
theorem C9_steam3_instance_resolution_witness :
    SteamID.from_steam3 (91 :: 85 :: 58 :: (48 + 1) :: 58 :: (decimalBytes 123 ++ [93]))
      = some (SteamID.new 123
          (Instance.new
            (if AccountType.Individual = AccountType.Individual then InstanceType.Desktop
              else InstanceType.All)
            InstanceFlags.None) AccountType.Individual Universe.Public) ∧
    SteamID.from_steam3
        (91 :: 99 :: 58 :: (48 + 3) :: 58 :: (decimalBytes 123 ++ 58 :: (decimalBytes 1 ++ [93])))
      = some (SteamID.new 123 (Instance.new InstanceType.All InstanceFlags.Clan)
          AccountType.Chat Universe.Internal) :=
  ⟨C9_steam3_instance_resolution.1 85 1 123 AccountType.Individual InstanceFlags.None
      Universe.Public (by decide) (by decide) (by decide),
    C9_steam3_instance_resolution.2.1 99 3 123 1 AccountType.Chat InstanceFlags.Clan
      Universe.Internal InstanceType.Desktop (by decide) (by decide) (by decide) (by decide)
      (Or.inr rfl)⟩

/-! ### Claim C1: steam3 round-trip -/

/-- Representability of an account-type/instance combination in steam3 text:
the type character determined by the account type and flags maps back to the
same pair, the instance number is only rendered when the flags are None (a
non-zero flag inside the rendered instance number would not re-parse), and
when the instance number is not rendered the instance type must be the
parser's default for that account type. -/
def steam3_representable (t : AccountType) (it : InstanceType) (fl : InstanceFlags) : Prop :=
  char_to_account_type (account_type_to_char t fl) = some (t, fl) ∧
  (render_instance t it = true → fl = InstanceFlags.None) ∧
  (render_instance t it = false → it = resolve_instance_type none t)

/-- C1: for every SteamID whose account-type/instance combination is
representable in steam3 text, rendering with `steam3` and re-parsing with
`from_steam3` returns the same SteamID. -/
theorem C1_steam3_roundtrip (aid : Nat) (t : AccountType) (it : InstanceType)
    (fl : InstanceFlags) (u : Universe) (ha : aid < 2 ^ 32)
    (hrep : steam3_representable t it fl) :
    ((SteamID.new aid (Instance.new it fl) t u).steam3).bind SteamID.from_steam3
      = some (SteamID.new aid (Instance.new it fl) t u) := by
  obtain ⟨hchar, hflags, hdef⟩ := hrep
  have hi := instance_new_val_lt it fl
  have hacct := SteamID.account_type_new aid _ t u ha hi
  have hinst := SteamID.get_instance_new aid _ t u ha hi
  rw [Instance.tryFrom_new_val] at hinst
  have hit := Instance.instance_type_new it fl
  have hfl := Instance.flags_new it fl
  have huni := SteamID.get_universe_new aid _ t u ha hi
  have haid := SteamID.account_id_new aid _ t u ha hi
  cases hri : render_instance t it with
  | false =>
    simp only [SteamID.steam3, hacct, hinst, hit, hfl, huni, haid, hri,
      Bool.false_eq_true, if_false, Option.some_bind, decimalBytes_universe]
    have hshape : [91, account_type_to_char t fl, 58] ++ [48 + u.toNat] ++ [58]
        ++ decimalBytes aid ++ [93]
        = 91 :: account_type_to_char t fl :: 58 :: (48 + u.toNat) :: 58
          :: (decimalBytes aid ++ [93]) := by
      simp
    rw [hshape, from_steam3_compose_noinst _ _ _ t fl u hchar (universe_tryFrom_toNat u) ha,
      ← hdef hri]
  | true =>
    have hflN := hflags hri
    subst hflN
    have hiv : (Instance.new it InstanceFlags.None).val = it.toNat := by
      rw [instance_new_val]
      simp [InstanceFlags.toNat]
    simp only [SteamID.steam3, hacct, hinst, hit, hfl, huni, haid, hri, if_true,
      Option.some_bind, decimalBytes_universe, hiv]
    have hshape : [91, account_type_to_char t InstanceFlags.None, 58] ++ [48 + u.toNat] ++ [58]
        ++ decimalBytes aid ++ [58] ++ decimalBytes it.toNat ++ [93]
        = 91 :: account_type_to_char t InstanceFlags.None :: 58 :: (48 + u.toNat) :: 58
          :: (decimalBytes aid ++ 58 :: (decimalBytes it.toNat ++ [93])) := by
      simp
    rw [hshape, from_steam3_compose_inst _ _ _ _ t InstanceFlags.None u it hchar
      (universe_tryFrom_toNat u) ha (instanceType_tryFrom_toNat it),
      resolve_instance_type_of_render t it it hri]

/-- C1 witness: the concrete example of the claim — parsing "[U:1:123]",
rendering it, and re-parsing gives the same result as parsing "[U:1:123]". -/
theorem C1_steam3_roundtrip_witness :
    SteamID.from_steam3 [91, 85, 58, 49, 58, 49, 50, 51, 93]
      = some (SteamID.new 123 (Instance.new InstanceType.Desktop InstanceFlags.None)
          AccountType.Individual Universe.Public) ∧
    steam3_representable AccountType.Individual InstanceType.Desktop InstanceFlags.None ∧
    ((SteamID.new 123 (Instance.new InstanceType.Desktop InstanceFlags.None)
        AccountType.Individual Universe.Public).steam3).bind SteamID.from_steam3
      = some (SteamID.new 123 (Instance.new InstanceType.Desktop InstanceFlags.None)
          AccountType.Individual Universe.Public) :=
  ⟨by decide, ⟨by decide, by decide, by decide⟩,
    C1_steam3_roundtrip 123 AccountType.Individual InstanceType.Desktop InstanceFlags.None
      Universe.Public (by decide) ⟨by decide, by decide, by decide⟩⟩
